import Mathlib

set_option maxRecDepth 8000

/- The library's rational-number operations are marked irreducible for
   elaboration performance; concrete evaluation by `decide` needs them to
   unfold again. -/
set_option allowUnsafeReducibility true

attribute [local semireducible] Rat.add Rat.mul Rat.inv Rat.sub Rat.ofScientific

/- Verification development for the Ludwig harmonic-measurement utility.

   The repository ingests tab-delimited power-quality measurement files into a
   relational store (scripts/import_harmonics.py and scripts/load_csv.py),
   groups the stored rows by harmonic number and renders polar scatter plots
   (scripts/plot_harmonics.py and scripts/generate_plots.py), and provides a
   management command that wipes the database (management/commands/reset_db.py).

   Text lines are embedded as `List Char`; Python floats are embedded as `ℚ`
   (angles converted to radians become `ℝ` via `Real.pi`); nullable database
   columns are `Option ℚ`; a raised `AssertionError` is an explicit error
   value; the mutable database is threaded as an explicit list of rows. -/

/-! ## Models of the Python string and number builtins -/

/-- Modelled from the Python builtin notion of whitespace used by `str.strip()`
(ASCII subset: space, tab, newline, carriage return, vertical tab, form feed). -/
def isPySpace (c : Char) : Bool :=
  c = ' ' || c = '\t' || c = '\n' || c = '\r' || c = Char.ofNat 11 || c = Char.ofNat 12

/-- Modelled from the Python builtin `str.strip()`: remove leading and trailing
whitespace. -/
def pyStrip (cs : List Char) : List Char :=
  ((cs.dropWhile isPySpace).reverse.dropWhile isPySpace).reverse

/-- Modelled from the Python builtin `str.lower()` (ASCII subset). -/
def pyLower (cs : List Char) : List Char :=
  cs.map Char.toLower

/-- Modelled from the Python builtin `str.split` with a single-character
separator: `"".split(sep)` is `[""]`, and every separator occurrence starts a
new field. -/
def splitOnSep (sep : Char) : List Char → List (List Char)
  | [] => [[]]
  | c :: cs =>
    match splitOnSep sep cs with
    | [] => [[c]]
    | f :: rest => if c = sep then [] :: f :: rest else (c :: f) :: rest

/-- Splitting on the tab character, as `line.split("\t")` does in both
ingestion scripts. -/
def splitOnTab (cs : List Char) : List (List Char) :=
  splitOnSep '\t' cs

/-- Value of a list of decimal digits, most significant first. -/
def digitsToNat (ds : List Char) : Nat :=
  ds.foldl (fun a c => a * 10 + (c.toNat - 48)) 0

/-- Longest prefix of decimal digits together with the rest of the input. -/
def takeDigits : List Char → List Char × List Char
  | [] => ([], [])
  | c :: cs =>
    if c.isDigit then
      let p := takeDigits cs
      (c :: p.1, p.2)
    else ([], c :: cs)

/-- Optional leading sign: returns whether the value is negated and the rest. -/
def parseSign : List Char → Bool × List Char
  | '+' :: cs => (false, cs)
  | '-' :: cs => (true, cs)
  | cs => (false, cs)

/-- Split at the first exponent marker of a float literal. -/
def splitAtExp : List Char → List Char × Option (List Char)
  | [] => ([], none)
  | c :: cs =>
    if c = 'e' || c = 'E' then ([], some cs)
    else
      let p := splitAtExp cs
      (c :: p.1, p.2)

/-- Mantissa of a Python float literal: `digits`, `digits.digits?` or
`.digits`, consuming the whole input. -/
def parseMantissa (cs : List Char) : Option ℚ :=
  let ipp := takeDigits cs
  match ipp.2 with
  | [] => if ipp.1.isEmpty then none else some (digitsToNat ipp.1 : ℚ)
  | '.' :: r2 =>
    let fpp := takeDigits r2
    if fpp.2.isEmpty && !(ipp.1.isEmpty && fpp.1.isEmpty) then
      some ((digitsToNat ipp.1 : ℚ) + (digitsToNat fpp.1 : ℚ) / (10 : ℚ) ^ fpp.1.length)
    else none
  | _ => none

/-- Exponent part of a Python float literal: optional sign then digits. -/
def parseExpDigits (cs : List Char) : Option Int :=
  let sp := parseSign cs
  let dp := takeDigits sp.2
  if dp.1.isEmpty || !dp.2.isEmpty then none
  else some (if sp.1 then -(digitsToNat dp.1 : Int) else (digitsToNat dp.1 : Int))

/-- Modelled from the Python builtin `float(s)` on decimal literals: strips
whitespace, then accepts an optional sign, a mantissa and an optional exponent.
The special values `inf`/`nan` and underscore separators are not modelled; no
claim depends on them. -/
def parsePyFloat (cs : List Char) : Option ℚ :=
  let s := pyStrip cs
  let sp := parseSign s
  let me := splitAtExp sp.2
  match parseMantissa me.1, me.2 with
  | some m, none => some (if sp.1 then -m else m)
  | some m, some ecs =>
    match parseExpDigits ecs with
    | some e => some ((if sp.1 then -m else m) * (10 : ℚ) ^ e)
    | none => none
  | none, _ => none

/-- Modelled from the Python builtin `int(s)`: strips whitespace, then accepts
an optional sign followed by one or more decimal digits (underscore separators
are not modelled; no claim depends on them). -/
def parsePyInt (cs : List Char) : Option Int :=
  match pyStrip cs with
  | '+' :: ds => if ds.isEmpty || !ds.all Char.isDigit then none else some (digitsToNat ds : Int)
  | '-' :: ds => if ds.isEmpty || !ds.all Char.isDigit then none else some (-(digitsToNat ds : Int))
  | ds => if ds.isEmpty || !ds.all Char.isDigit then none else some (digitsToNat ds : Int)

/-- Modelled from Python `dict(zip(headers, fields))[k]` lookup: when a key is
repeated the last binding wins, as in a Python dict built left to right. -/
def dictGet (pairs : List (List Char × List Char)) (k : List Char) : Option (List Char) :=
  pairs.foldl (fun acc p => if p.1 = k then some p.2 else acc) none

/-! ## Data model -/

/-- Row dictionary built by `read_csv` in scripts/import_harmonics.py
(the `row_id` key is kept for debugging and dropped on insertion). -/
structure RecordIH where
  row_id : Int := 0
  harmonic_number : Int := 0
  v_prevail_ang1 : Option ℚ := none
  v_prevail_ang2 : Option ℚ := none
  v_prevail_ang3 : Option ℚ := none
  v_prevail_ang4 : Option ℚ := none
  v_prevail_mag1 : Option ℚ := none
  v_prevail_mag2 : Option ℚ := none
  v_prevail_mag3 : Option ℚ := none
  v_prevail_mag4 : Option ℚ := none
  I_prevail_ang1 : Option ℚ := none
  I_prevail_ang2 : Option ℚ := none
  I_prevail_ang3 : Option ℚ := none
  I_prevail_ang4 : Option ℚ := none
  I_prevail_mag1 : Option ℚ := none
  I_prevail_mag2 : Option ℚ := none
  I_prevail_mag3 : Option ℚ := none
  I_prevail_mag4 : Option ℚ := none
  deriving DecidableEq

/-- The `HarmonicRecord` Django model (ludwig/models.py via migration
0002: all measurement columns are nullable floats). -/
structure HarmonicRecord where
  harmonic_number : Int := 0
  v_prevail_ang1 : Option ℚ := none
  v_prevail_ang2 : Option ℚ := none
  v_prevail_ang3 : Option ℚ := none
  v_prevail_ang4 : Option ℚ := none
  v_prevail_mag1 : Option ℚ := none
  v_prevail_mag2 : Option ℚ := none
  v_prevail_mag3 : Option ℚ := none
  v_prevail_mag4 : Option ℚ := none
  I_prevail_ang1 : Option ℚ := none
  I_prevail_ang2 : Option ℚ := none
  I_prevail_ang3 : Option ℚ := none
  I_prevail_ang4 : Option ℚ := none
  I_prevail_mag1 : Option ℚ := none
  I_prevail_mag2 : Option ℚ := none
  I_prevail_mag3 : Option ℚ := none
  I_prevail_mag4 : Option ℚ := none
  deriving DecidableEq

/-- The `HarmData` Django model (ludwig/models.py): non-nullable float
columns used by load_csv.py and generate_plots.py. -/
structure HarmData where
  harm_number : Int := 0
  p_harm_total : ℚ := 0
  i_prevail_mag_1 : ℚ := 0
  i_prevail_ang_1 : ℚ := 0
  v_prevail_mag_1 : ℚ := 0
  v_prevail_ang_1 : ℚ := 0
  i_prevail_mag_2 : ℚ := 0
  i_prevail_ang_2 : ℚ := 0
  v_prevail_mag_2 : ℚ := 0
  v_prevail_ang_2 : ℚ := 0
  i_prevail_mag_3 : ℚ := 0
  i_prevail_ang_3 : ℚ := 0
  v_prevail_mag_3 : ℚ := 0
  v_prevail_ang_3 : ℚ := 0
  deriving DecidableEq

/-- Errors raised by the ingestion scripts (`raise AssertionError`/`assert`). -/
inductive CsvError where
  | emptyFile
  | missingColumns (missing : List (List Char))
  deriving DecidableEq

/-! ## scripts/import_harmonics.py -/

/-- `MAX_ROWS` from scripts/import_harmonics.py. -/
def MAX_ROWS : Nat := 100000

/-- `required_headers` from `read_csv` in scripts/import_harmonics.py. -/
def required_headers : List (List Char) :=
  (["ROW_ID", "HARM_NUMBER",
    "V_PREVAIL_ANG_1", "V_PREVAIL_ANG_2", "V_PREVAIL_ANG_3", "V_PREVAIL_ANG_4",
    "V_PREVAIL_MAG_1", "V_PREVAIL_MAG_2", "V_PREVAIL_MAG_3", "V_PREVAIL_MAG_4",
    "I_PREVAIL_ANG_1", "I_PREVAIL_ANG_2", "I_PREVAIL_ANG_3", "I_PREVAIL_ANG_4",
    "I_PREVAIL_MAG_1", "I_PREVAIL_MAG_2", "I_PREVAIL_MAG_3", "I_PREVAIL_MAG_4"]).map
    (fun s => s.toList)

/-- Header-line processing in `read_csv`: strip whitespace, remove one pair of
surrounding quotes if present, split on tab. -/
def stripQuotes (cs : List Char) : List Char :=
  if cs.head? = some '"' ∧ cs.getLast? = some '"' then cs.tail.dropLast else cs

/-- `headers` as computed by `read_csv` from the first line of the file. -/
def parse_header (headerLine : List Char) : List (List Char) :=
  splitOnTab (stripQuotes (pyStrip headerLine))

/-- The missing-columns set computed by `read_csv`
(`required_headers - found_headers`). -/
def missing_headers_ih (headerLine : List Char) : List (List Char) :=
  required_headers.filter (fun c => decide (c ∉ parse_header headerLine))

/-- `safe_float` from `read_csv`: `None` for a missing or blank field, the
parsed float otherwise, `None` again if parsing fails. -/
def safe_float (row : List (List Char × List Char)) (field_name : List Char) : Option ℚ :=
  match dictGet row field_name with
  | none => none
  | some v => if (pyStrip v).isEmpty then none else parsePyFloat (pyStrip v)

/-- One iteration of the `read_csv` data-line loop: `none` exactly when the
line is skipped (blank line, field-count mismatch, missing or non-integer
HARM_NUMBER, missing or non-integer ROW_ID). -/
def processRowIH (headers : List (List Char)) (line : List Char) : Option RecordIH :=
  let l := pyStrip line
  if l.isEmpty then none
  else
    let l2 := stripQuotes l
    let fields := splitOnTab l2
    if fields.length ≠ headers.length then none
    else
      let row := headers.zip fields
      match dictGet row ("HARM_NUMBER".toList) with
      | none => none
      | some hf =>
        if (pyStrip hf).isEmpty then none
        else
          match parsePyFloat (pyStrip hf) with
          | none => none
          | some hv =>
            if hv.den ≠ 1 then none
            else
              match dictGet row ("ROW_ID".toList) with
              | none => none
              | some rf =>
                if (pyStrip rf).isEmpty then none
                else
                  match parsePyInt (pyStrip rf) with
                  | none => none
                  | some rid =>
                    some { row_id := rid
                           harmonic_number := hv.num
                           v_prevail_ang1 := safe_float row ("V_PREVAIL_ANG_1".toList)
                           v_prevail_ang2 := safe_float row ("V_PREVAIL_ANG_2".toList)
                           v_prevail_ang3 := safe_float row ("V_PREVAIL_ANG_3".toList)
                           v_prevail_ang4 := safe_float row ("V_PREVAIL_ANG_4".toList)
                           v_prevail_mag1 := safe_float row ("V_PREVAIL_MAG_1".toList)
                           v_prevail_mag2 := safe_float row ("V_PREVAIL_MAG_2".toList)
                           v_prevail_mag3 := safe_float row ("V_PREVAIL_MAG_3".toList)
                           v_prevail_mag4 := safe_float row ("V_PREVAIL_MAG_4".toList)
                           I_prevail_ang1 := safe_float row ("I_PREVAIL_ANG_1".toList)
                           I_prevail_ang2 := safe_float row ("I_PREVAIL_ANG_2".toList)
                           I_prevail_ang3 := safe_float row ("I_PREVAIL_ANG_3".toList)
                           I_prevail_ang4 := safe_float row ("I_PREVAIL_ANG_4".toList)
                           I_prevail_mag1 := safe_float row ("I_PREVAIL_MAG_1".toList)
                           I_prevail_mag2 := safe_float row ("I_PREVAIL_MAG_2".toList)
                           I_prevail_mag3 := safe_float row ("I_PREVAIL_MAG_3".toList)
                           I_prevail_mag4 := safe_float row ("I_PREVAIL_MAG_4".toList) }

/-- The `read_csv` data loop: `rows_processed` counts accepted records and the
loop breaks once it reaches `max_rows`. -/
def readLoop (headers : List (List Char)) (max_rows : Nat) :
    List (List Char) → Nat → List RecordIH
  | [], _ => []
  | line :: rest, processed =>
    if max_rows ≤ processed then []
    else
      match processRowIH headers line with
      | none => readLoop headers max_rows rest processed
      | some r => r :: readLoop headers max_rows rest (processed + 1)

/-- `read_csv` from scripts/import_harmonics.py on the list of lines of the
file. -/
def read_csv (lines : List (List Char)) (max_rows : Nat) :
    Except CsvError (List RecordIH) :=
  match lines with
  | [] => .error .emptyFile
  | headerLine :: dataLines =>
    let missing := missing_headers_ih headerLine
    if missing ≠ [] then .error (.missingColumns missing)
    else .ok (readLoop (parse_header headerLine) max_rows dataLines 0)

/-- `import_records` builds a `HarmonicRecord` from each parsed row,
dropping the `row_id` field. -/
def importRecord (r : RecordIH) : HarmonicRecord :=
  { harmonic_number := r.harmonic_number
    v_prevail_ang1 := r.v_prevail_ang1
    v_prevail_ang2 := r.v_prevail_ang2
    v_prevail_ang3 := r.v_prevail_ang3
    v_prevail_ang4 := r.v_prevail_ang4
    v_prevail_mag1 := r.v_prevail_mag1
    v_prevail_mag2 := r.v_prevail_mag2
    v_prevail_mag3 := r.v_prevail_mag3
    v_prevail_mag4 := r.v_prevail_mag4
    I_prevail_ang1 := r.I_prevail_ang1
    I_prevail_ang2 := r.I_prevail_ang2
    I_prevail_ang3 := r.I_prevail_ang3
    I_prevail_ang4 := r.I_prevail_ang4
    I_prevail_mag1 := r.I_prevail_mag1
    I_prevail_mag2 := r.I_prevail_mag2
    I_prevail_mag3 := r.I_prevail_mag3
    I_prevail_mag4 := r.I_prevail_mag4 }

/-- `import_records` from scripts/import_harmonics.py: saves every record into
the database, in order. -/
def import_records (db : List HarmonicRecord) (records : List RecordIH) : List HarmonicRecord :=
  db ++ records.map importRecord

/-- The import script's `main` after argument handling: parse the file, then
insert every parsed record; an error leaves the database untouched because it
is raised before any insertion. -/
def import_harmonics_run (db : List HarmonicRecord) (lines : List (List Char)) :
    List HarmonicRecord × Option CsvError :=
  match read_csv lines MAX_ROWS with
  | .error e => (db, some e)
  | .ok records => (import_records db records, none)

/-! ## scripts/load_csv.py -/

/-- `REQUIRED_COLUMNS` from scripts/load_csv.py, in source order. -/
def REQUIRED_COLUMNS : List (List Char) :=
  (["HARM_NUMBER", "P_HARM_TOTAL",
    "I_PREVAIL_MAG_1", "I_PREVAIL_ANG_1", "V_PREVAIL_MAG_1", "V_PREVAIL_ANG_1",
    "I_PREVAIL_MAG_2", "I_PREVAIL_ANG_2", "V_PREVAIL_MAG_2", "V_PREVAIL_ANG_2",
    "I_PREVAIL_MAG_3", "I_PREVAIL_ANG_3", "V_PREVAIL_MAG_3", "V_PREVAIL_ANG_3"]).map
    (fun s => s.toList)

/-- `missing_columns` as computed by `load_csv_to_db` (list comprehension over
`REQUIRED_COLUMNS`, keeping source order). -/
def missing_columns_lc (headerLine : List Char) : List (List Char) :=
  REQUIRED_COLUMNS.filter (fun c => decide (c ∉ splitOnTab (pyStrip headerLine)))

/-- Field lookup plus float conversion inside the `load_csv_to_db` row loop;
`none` when the key is absent or the conversion raises. -/
def getFloat (row : List (List Char × List Char)) (k : List Char) : Option ℚ :=
  (dictGet row k).bind parsePyFloat

/-- One iteration of the `load_csv_to_db` line loop: `none` exactly when the
line is skipped (blank line, field-count mismatch, non-integer HARM_NUMBER, or
a required field that does not convert to float). -/
def processRowLC (header_fields : List (List Char)) (line : List Char) : Option HarmData :=
  let l := pyStrip line
  if l.isEmpty then none
  else
    let parts := splitOnTab l
    if parts.length ≠ header_fields.length then none
    else
      let row := header_fields.zip parts
      match (dictGet row ("HARM_NUMBER".toList)).bind parsePyInt with
      | none => none
      | some harm_number =>
        match getFloat row ("P_HARM_TOTAL".toList), getFloat row ("I_PREVAIL_MAG_1".toList),
              getFloat row ("I_PREVAIL_ANG_1".toList), getFloat row ("V_PREVAIL_MAG_1".toList),
              getFloat row ("V_PREVAIL_ANG_1".toList), getFloat row ("I_PREVAIL_MAG_2".toList),
              getFloat row ("I_PREVAIL_ANG_2".toList), getFloat row ("V_PREVAIL_MAG_2".toList),
              getFloat row ("V_PREVAIL_ANG_2".toList), getFloat row ("I_PREVAIL_MAG_3".toList),
              getFloat row ("I_PREVAIL_ANG_3".toList), getFloat row ("V_PREVAIL_MAG_3".toList),
              getFloat row ("V_PREVAIL_ANG_3".toList) with
        | some p, some im1, some ia1, some vm1, some va1, some im2, some ia2, some vm2,
          some va2, some im3, some ia3, some vm3, some va3 =>
            some { harm_number := harm_number, p_harm_total := p,
                   i_prevail_mag_1 := im1, i_prevail_ang_1 := ia1,
                   v_prevail_mag_1 := vm1, v_prevail_ang_1 := va1,
                   i_prevail_mag_2 := im2, i_prevail_ang_2 := ia2,
                   v_prevail_mag_2 := vm2, v_prevail_ang_2 := va2,
                   i_prevail_mag_3 := im3, i_prevail_ang_3 := ia3,
                   v_prevail_mag_3 := vm3, v_prevail_ang_3 := va3 }
        | _, _, _, _, _, _, _, _, _, _, _, _, _ => none

/-- `load_csv_to_db` from scripts/load_csv.py: the header assertions are
checked before any record is built, and `bulk_create` appends all collected
records at the end (there is no row cap in this script). -/
def load_csv_to_db_run (db : List HarmData) (lines : List (List Char)) :
    List HarmData × Option CsvError :=
  match lines with
  | [] => (db, some .emptyFile)
  | headerLine :: dataLines =>
    let header_line := pyStrip headerLine
    if header_line.isEmpty then (db, some .emptyFile)
    else
      let missing := missing_columns_lc headerLine
      if missing ≠ [] then (db, some (.missingColumns missing))
      else (db ++ dataLines.filterMap (processRowLC (splitOnTab header_line)), none)

/-! ## management/commands/reset_db.py -/

/-- `Command.handle` from the wipe command: without `--noinput` it reads a
confirmation and aborts with the database untouched unless the lower-cased
answer is exactly `yes`; otherwise it flushes every model. Returns the
database state and whether the wipe was aborted. -/
def wipe_db_handle {α : Type} (noinput : Bool) (confirm : List Char) (db : List α) :
    List α × Bool :=
  if noinput = false ∧ pyLower confirm ≠ ("yes".toList) then (db, true)
  else ([], false)

/-! ## scripts/plot_harmonics.py -/

/-- `MAX_RECORDS_PER_HARMONIC` from scripts/plot_harmonics.py. -/
def MAX_RECORDS_PER_HARMONIC : Nat := 100000

/-- `get_records_grouped_by_harmonic`: distinct harmonic numbers, each mapped
to the stored records with that number, truncated by the query slice. The
source's `isinstance(harmonic, int)` guard is always satisfied here because
`harmonic_number` is an `IntegerField`, embedded as `Int`. -/
def distinct_harmonics (db : List HarmonicRecord) : List Int :=
  (db.map (fun r => r.harmonic_number)).dedup

/-- `get_records_grouped_by_harmonic` from scripts/plot_harmonics.py, as an
association list from harmonic number to its (truncated) record list. -/
def get_records_grouped_by_harmonic (db : List HarmonicRecord) :
    List (Int × List HarmonicRecord) :=
  (distinct_harmonics db).map
    (fun h => (h, (db.filter (fun r => r.harmonic_number = h)).take MAX_RECORDS_PER_HARMONIC))

/-- The two field prefixes used by `create_polar_plot_for_group`
(`"v_prevail_"` and `"I_prevail_"`). -/
inductive FieldGroup where
  | vPrevail
  | IPrevail
  deriving DecidableEq

/-- `getattr(record, f"{pre}ang{i}", None)` for the two field groups. -/
def getattr_ang (pre : FieldGroup) (i : Nat) (r : HarmonicRecord) : Option ℚ :=
  match pre, i with
  | .vPrevail, 1 => r.v_prevail_ang1
  | .vPrevail, 2 => r.v_prevail_ang2
  | .vPrevail, 3 => r.v_prevail_ang3
  | .vPrevail, 4 => r.v_prevail_ang4
  | .IPrevail, 1 => r.I_prevail_ang1
  | .IPrevail, 2 => r.I_prevail_ang2
  | .IPrevail, 3 => r.I_prevail_ang3
  | .IPrevail, 4 => r.I_prevail_ang4
  | _, _ => none

/-- `getattr(record, f"{pre}mag{i}", None)` for the two field groups. -/
def getattr_mag (pre : FieldGroup) (i : Nat) (r : HarmonicRecord) : Option ℚ :=
  match pre, i with
  | .vPrevail, 1 => r.v_prevail_mag1
  | .vPrevail, 2 => r.v_prevail_mag2
  | .vPrevail, 3 => r.v_prevail_mag3
  | .vPrevail, 4 => r.v_prevail_mag4
  | .IPrevail, 1 => r.I_prevail_mag1
  | .IPrevail, 2 => r.I_prevail_mag2
  | .IPrevail, 3 => r.I_prevail_mag3
  | .IPrevail, 4 => r.I_prevail_mag4
  | _, _ => none

/-- `np.deg2rad` applied to a stored angle value. -/
noncomputable def deg2rad (q : ℚ) : ℝ :=
  (q : ℝ) * Real.pi / 180

/-- The measured (theta, radius) pairs collected by
`create_polar_plot_for_group` for channel `i`: one pair per record whose angle
and magnitude fields are both non-`None`, with the angle converted to
radians. -/
noncomputable def series_data (pre : FieldGroup) (i : Nat) (records : List HarmonicRecord) :
    List (ℝ × ℝ) :=
  records.filterMap (fun r =>
    match getattr_ang pre i r, getattr_mag pre i r with
    | some a, some m => some (deg2rad a, (m : ℝ))
    | _, _ => none)

/-- The magnitude-only series collected by `create_polar_plot_for_group` for
channel `i`: one value per record whose magnitude field is non-`None`. -/
def mag_series_data (pre : FieldGroup) (i : Nat) (records : List HarmonicRecord) : List ℚ :=
  records.filterMap (fun r => getattr_mag pre i r)

/-- `fixed_angles = {1: 0, 2: np.pi/2, 3: np.pi, 4: 3*np.pi/2}` from
`create_polar_plot_for_group`. -/
noncomputable def fixed_angles : Nat → ℝ
  | 1 => 0
  | 2 => Real.pi / 2
  | 3 => Real.pi
  | 4 => 3 * Real.pi / 2
  | _ => 0

/-- The magnitude-only scatter points for channel `i`:
`ax.scatter(np.full(len(mags), fixed_angles[i]), mags)` pairs the constant
angle with each magnitude. -/
noncomputable def mag_points (pre : FieldGroup) (i : Nat) (records : List HarmonicRecord) :
    List (ℝ × ℝ) :=
  (List.replicate (mag_series_data pre i records).length (fixed_angles i)).zip
    ((mag_series_data pre i records).map (fun q : ℚ => (q : ℝ)))

/-! ## scripts/generate_plots.py -/

/-- `pandas.Series.max` on the `p_harm_total` column of a non-empty frame. -/
def maxQ : List ℚ → ℚ
  | [] => 0
  | x :: xs => xs.foldl max x

/-- `fetch_data` from scripts/generate_plots.py: filter by harmonic number,
assert non-emptiness, optionally apply the night-mode threshold filter, then
assert at least two rows remain. -/
def fetch_data (db : List HarmData) (harm_number : Int) (night_mode : Bool)
    (threshold_percentage : Option ℚ) : Except (List Char) (List HarmData) :=
  let df := db.filter (fun r => r.harm_number = harm_number)
  if df.isEmpty then .error ("No data found for the specified harmonic number.".toList)
  else
    let df2 : List HarmData :=
      match night_mode, threshold_percentage with
      | true, some tp =>
        let max_val := maxQ (df.map (fun x => x.p_harm_total))
        let threshold := tp / 100 * max_val
        df.filter (fun r => threshold < r.p_harm_total)
      | _, _ => df
    if df2.isEmpty || decide (df2.length < 2) then
      .error ("Insufficient data after filtering.".toList)
    else .ok df2

/-- The claim-side acceptance condition, as stated for `fetch_data`: the rows
for the requested harmonic, filtered in night mode with a threshold to those
whose `p_harm_total` strictly exceeds `t/100` of the maximum among those rows,
and unfiltered otherwise. -/
def fetch_data_claim_rows (db : List HarmData) (harm_number : Int) (night_mode : Bool)
    (threshold_percentage : Option ℚ) : List HarmData :=
  let df := db.filter (fun r => r.harm_number = harm_number)
  match night_mode, threshold_percentage with
  | true, some tp => df.filter (fun r => tp / 100 * maxQ (df.map (fun x => x.p_harm_total)) < r.p_harm_total)
  | _, _ => df

/-! ## Claim-side row-validity conditions for the ingestion claim -/

/-- Claim-side condition for `load_csv_to_db`, following the claim's words:
the data line is non-empty, splits on the delimiter into as many fields as the
header, its HARM_NUMBER field parses as an integer, and the other required
fields parse as floats. -/
def claimC1_validLC (header_fields : List (List Char)) (line : List Char) : Bool :=
  let l := pyStrip line
  let parts := splitOnTab l
  let row := header_fields.zip parts
  !l.isEmpty && (parts.length == header_fields.length)
    && ((dictGet row ("HARM_NUMBER".toList)).bind parsePyInt).isSome
    && (REQUIRED_COLUMNS.tail.all (fun c => (getFloat row c).isSome))

/-- The claim's "HARM_NUMBER field parses as an integer" for `read_csv`, where
the field is parsed as a float and accepted when it is integral. -/
def harm_number_integer (v : Option (List Char)) : Bool :=
  match v with
  | none => false
  | some hf => !(pyStrip hf).isEmpty &&
      (match parsePyFloat (pyStrip hf) with
       | some q => q.den == 1
       | none => false)

/-- The ROW_ID acceptance condition actually enforced by `read_csv` (present,
non-blank, and parsing as an `int`). -/
def row_id_integer (v : Option (List Char)) : Bool :=
  match v with
  | none => false
  | some rf => !(pyStrip rf).isEmpty && (parsePyInt (pyStrip rf)).isSome

/-- Claim-side condition for `read_csv`, following the claim's words: the data
line is non-empty, splits on the delimiter into as many fields as the header,
and its HARM_NUMBER field parses as an integer. (The claim lists no ROW_ID
requirement.) -/
def claimC1_validIH (headers : List (List Char)) (line : List Char) : Bool :=
  let l := pyStrip line
  let fields := splitOnTab (stripQuotes l)
  let row := headers.zip fields
  !l.isEmpty && (fields.length == headers.length)
    && harm_number_integer (dictGet row ("HARM_NUMBER".toList))

/-- The amended claim-side condition for `read_csv`: the stated conditions
plus a present, integer-parsing ROW_ID field. -/
def claimC1_validIH_full (headers : List (List Char)) (line : List Char) : Bool :=
  claimC1_validIH headers line
    && row_id_integer
        (dictGet (headers.zip (splitOnTab (stripQuotes (pyStrip line)))) ("ROW_ID".toList))

/-! ## Concrete inputs used by witnesses and counterexamples -/

deriving instance DecidableEq for Except

/-- A well-formed tab-delimited header for `read_csv` containing all 18
required columns. -/
def ihHdrLine : List Char :=
  ("ROW_ID\tHARM_NUMBER\tV_PREVAIL_ANG_1\tV_PREVAIL_ANG_2\tV_PREVAIL_ANG_3\tV_PREVAIL_ANG_4\tV_PREVAIL_MAG_1\tV_PREVAIL_MAG_2\tV_PREVAIL_MAG_3\tV_PREVAIL_MAG_4\tI_PREVAIL_ANG_1\tI_PREVAIL_ANG_2\tI_PREVAIL_ANG_3\tI_PREVAIL_ANG_4\tI_PREVAIL_MAG_1\tI_PREVAIL_MAG_2\tI_PREVAIL_MAG_3\tI_PREVAIL_MAG_4".toList)

/-- A data line with the right field count and an integer HARM_NUMBER, but a
non-integer ROW_ID (`x`). -/
def ihBadRow : List Char :=
  ("x\t2\t1\t1\t1\t1\t1\t1\t1\t1\t1\t1\t1\t1\t1\t1\t1\t1".toList)

/-- A fully valid data line for `read_csv` (ROW_ID 7, HARM_NUMBER 2, all
measurements 1). -/
def ihGoodRow : List Char :=
  ("7\t2\t1\t1\t1\t1\t1\t1\t1\t1\t1\t1\t1\t1\t1\t1\t1\t1".toList)

/-- The record `read_csv` builds from `ihGoodRow`. -/
def ihGoodRec : RecordIH :=
  { row_id := 7, harmonic_number := 2,
    v_prevail_ang1 := some 1, v_prevail_ang2 := some 1,
    v_prevail_ang3 := some 1, v_prevail_ang4 := some 1,
    v_prevail_mag1 := some 1, v_prevail_mag2 := some 1,
    v_prevail_mag3 := some 1, v_prevail_mag4 := some 1,
    I_prevail_ang1 := some 1, I_prevail_ang2 := some 1,
    I_prevail_ang3 := some 1, I_prevail_ang4 := some 1,
    I_prevail_mag1 := some 1, I_prevail_mag2 := some 1,
    I_prevail_mag3 := some 1, I_prevail_mag4 := some 1 }

/-- A well-formed tab-delimited header for `load_csv_to_db` containing all 14
required columns, in source order. -/
def lcHdrLine : List Char :=
  ("HARM_NUMBER\tP_HARM_TOTAL\tI_PREVAIL_MAG_1\tI_PREVAIL_ANG_1\tV_PREVAIL_MAG_1\tV_PREVAIL_ANG_1\tI_PREVAIL_MAG_2\tI_PREVAIL_ANG_2\tV_PREVAIL_MAG_2\tV_PREVAIL_ANG_2\tI_PREVAIL_MAG_3\tI_PREVAIL_ANG_3\tV_PREVAIL_MAG_3\tV_PREVAIL_ANG_3".toList)

/-- A fully valid data line for `load_csv_to_db`. -/
def lcRowLine : List Char :=
  ("3\t1\t2\t3\t4\t5\t6\t7\t8\t9\t10\t11\t12\t13".toList)

/-- The record `load_csv_to_db` builds from `lcRowLine`. -/
def lcRec : HarmData :=
  { harm_number := 3, p_harm_total := 1,
    i_prevail_mag_1 := 2, i_prevail_ang_1 := 3, v_prevail_mag_1 := 4, v_prevail_ang_1 := 5,
    i_prevail_mag_2 := 6, i_prevail_ang_2 := 7, v_prevail_mag_2 := 8, v_prevail_ang_2 := 9,
    i_prevail_mag_3 := 10, i_prevail_ang_3 := 11, v_prevail_mag_3 := 12, v_prevail_ang_3 := 13 }

/-- A well-formed comma-delimited header containing all 14 columns required by
`load_csv_to_db`. -/
def lcCommaHdr : List Char :=
  ("HARM_NUMBER,P_HARM_TOTAL,I_PREVAIL_MAG_1,I_PREVAIL_ANG_1,V_PREVAIL_MAG_1,V_PREVAIL_ANG_1,I_PREVAIL_MAG_2,I_PREVAIL_ANG_2,V_PREVAIL_MAG_2,V_PREVAIL_ANG_2,I_PREVAIL_MAG_3,I_PREVAIL_ANG_3,V_PREVAIL_MAG_3,V_PREVAIL_ANG_3".toList)

/-- A comma-delimited data line matching `lcCommaHdr`. -/
def lcCommaRow : List Char :=
  ("3,1,2,3,4,5,6,7,8,9,10,11,12,13".toList)

/-- A well-formed comma-delimited header containing all 18 columns required by
`read_csv`. -/
def ihCommaHdr : List Char :=
  ("ROW_ID,HARM_NUMBER,V_PREVAIL_ANG_1,V_PREVAIL_ANG_2,V_PREVAIL_ANG_3,V_PREVAIL_ANG_4,V_PREVAIL_MAG_1,V_PREVAIL_MAG_2,V_PREVAIL_MAG_3,V_PREVAIL_MAG_4,I_PREVAIL_ANG_1,I_PREVAIL_ANG_2,I_PREVAIL_ANG_3,I_PREVAIL_ANG_4,I_PREVAIL_MAG_1,I_PREVAIL_MAG_2,I_PREVAIL_MAG_3,I_PREVAIL_MAG_4".toList)

/-- A comma-delimited data line matching `ihCommaHdr`. -/
def ihCommaRow : List Char :=
  ("7,2,1,1,1,1,1,1,1,1,1,1,1,1,1,1,1,1".toList)

/-- A header for `load_csv_to_db` missing the P_HARM_TOTAL column. -/
def lcHdrMissingOne : List Char :=
  ("HARM_NUMBER\tI_PREVAIL_MAG_1\tI_PREVAIL_ANG_1\tV_PREVAIL_MAG_1\tV_PREVAIL_ANG_1\tI_PREVAIL_MAG_2\tI_PREVAIL_ANG_2\tV_PREVAIL_MAG_2\tV_PREVAIL_ANG_2\tI_PREVAIL_MAG_3\tI_PREVAIL_ANG_3\tV_PREVAIL_MAG_3\tV_PREVAIL_ANG_3".toList)

/-- A header for `read_csv` missing the ROW_ID column. -/
def ihHdrMissingOne : List Char :=
  ("HARM_NUMBER\tV_PREVAIL_ANG_1\tV_PREVAIL_ANG_2\tV_PREVAIL_ANG_3\tV_PREVAIL_ANG_4\tV_PREVAIL_MAG_1\tV_PREVAIL_MAG_2\tV_PREVAIL_MAG_3\tV_PREVAIL_MAG_4\tI_PREVAIL_ANG_1\tI_PREVAIL_ANG_2\tI_PREVAIL_ANG_3\tI_PREVAIL_ANG_4\tI_PREVAIL_MAG_1\tI_PREVAIL_MAG_2\tI_PREVAIL_MAG_3\tI_PREVAIL_MAG_4".toList)

/-- A three-row store for the `fetch_data` witness (harmonic 3, powers 10,
100, 60). -/
def db9 : List HarmData :=
  [ { harm_number := 3, p_harm_total := 10 },
    { harm_number := 3, p_harm_total := 100 },
    { harm_number := 3, p_harm_total := 60 } ]

/-- A record with a magnitude but no angle on channel 2 of the voltage
group. -/
def rec5 : HarmonicRecord :=
  { harmonic_number := 3, v_prevail_mag2 := some 5 }

/-- A two-record store for the grouping witness. -/
def db6 : List HarmonicRecord :=
  [ { harmonic_number := 3 }, { harmonic_number := 5 } ]

/-! ## Helper lemmas -/

theorem zip_replicate_fst {α β : Type} {c : α} {l : List β} {p : α × β}
    (hp : p ∈ (List.replicate l.length c).zip l) : p.1 = c := by
  induction l with
  | nil => simp at hp
  | cons b bs ih =>
    rw [List.length_cons, List.replicate_succ, List.zip_cons_cons] at hp
    rcases List.mem_cons.mp hp with h | h
    · rw [h]
    · exact ih h

theorem zip_replicate_mem {α β : Type} (c : α) {l : List β} {b : β} (hb : b ∈ l) :
    (c, b) ∈ (List.replicate l.length c).zip l := by
  induction l with
  | nil => simp at hb
  | cons x xs ih =>
    rw [List.length_cons, List.replicate_succ, List.zip_cons_cons]
    rcases List.mem_cons.mp hb with h | h
    · exact h ▸ List.mem_cons_self _ _
    · exact List.mem_cons_of_mem _ (ih h)

/-! ## Claim C5 -/

/-- Claim C5: in every polar plot produced by `create_polar_plot_for_group`,
the magnitude-only point for each non-`None` magnitude value of channel `i` is
placed at a fixed angle determined only by the channel — channel 1 at 0
radians, channel 2 at `π/2`, channel 3 at `π`, channel 4 at `3π/2` — with
radius equal to that magnitude value. -/
theorem mag_fixed_angle_placement (pre : FieldGroup) (i : Nat)
    (records : List HarmonicRecord) (r : HarmonicRecord) (m : ℚ)
    (hr : r ∈ records) (hm : getattr_mag pre i r = some m) :
    (fixed_angles i, (m : ℝ)) ∈ mag_points pre i records
    ∧ (∀ p ∈ mag_points pre i records, p.1 = fixed_angles i)
    ∧ fixed_angles 1 = 0 ∧ fixed_angles 2 = Real.pi / 2
    ∧ fixed_angles 3 = Real.pi ∧ fixed_angles 4 = 3 * Real.pi / 2 := by
  refine ⟨?_, ?_, rfl, rfl, rfl, rfl⟩
  · have h1 : m ∈ mag_series_data pre i records :=
      List.mem_filterMap.mpr ⟨r, hr, hm⟩
    have h2 : (m : ℝ) ∈ (mag_series_data pre i records).map (fun q : ℚ => (q : ℝ)) :=
      List.mem_map_of_mem _ h1
    unfold mag_points
    have hlen : (mag_series_data pre i records).length
        = ((mag_series_data pre i records).map (fun q : ℚ => (q : ℝ))).length :=
      (List.length_map _ _).symm
    rw [hlen]
    exact zip_replicate_mem _ h2
  · intro p hp
    unfold mag_points at hp
    rw [show (mag_series_data pre i records).length
        = ((mag_series_data pre i records).map (fun q : ℚ => (q : ℝ))).length from
        (List.length_map _ _).symm] at hp
    exact zip_replicate_fst hp

/-- Witness for C5: a record with `v_prevail_mag2 = 5` yields the point
`(π/2, 5)` on channel 2 of the voltage plot. -/
theorem mag_fixed_angle_placement_witness :
    (fixed_angles 2, ((5 : ℚ) : ℝ)) ∈ mag_points .vPrevail 2 [rec5] :=
  (mag_fixed_angle_placement .vPrevail 2 [rec5] rec5 5 (by simp) rfl).1

/-! ## Claim C10 -/

/-- Claim C10: `create_polar_plot_for_group` includes a measured
(angle, magnitude) point for a record and channel only when both fields are
non-`None`; the magnitude-only point is included whenever the magnitude alone
is non-`None`, even if the angle is missing; records with missing fields never
cause an error (all the collection functions are total). -/
theorem polar_missing_fields_spec (pre : FieldGroup) (i : Nat)
    (records : List HarmonicRecord) (r : HarmonicRecord) (hr : r ∈ records) :
    (∀ m : ℚ, getattr_mag pre i r = some m → m ∈ mag_series_data pre i records)
    ∧ (∀ a m : ℚ, getattr_ang pre i r = some a → getattr_mag pre i r = some m →
        (deg2rad a, (m : ℝ)) ∈ series_data pre i records)
    ∧ (∀ recs : List HarmonicRecord,
        (∀ r2 ∈ recs, getattr_ang pre i r2 = none ∨ getattr_mag pre i r2 = none) →
        series_data pre i recs = []) := by
  refine ⟨fun m hm => List.mem_filterMap.mpr ⟨r, hr, hm⟩,
          fun a m ha hm => List.mem_filterMap.mpr ⟨r, hr, by simp [ha, hm]⟩,
          fun recs hrecs => List.filterMap_eq_nil_iff.mpr (fun r2 h2 => ?_)⟩
  rcases hrecs r2 h2 with h | h
  · simp [h]
  · cases h3 : getattr_ang pre i r2 <;> simp [h, h3]

/-- Witness for C10: `rec5` has a channel-2 magnitude but no channel-2 angle,
and its magnitude still appears in the magnitude-only series while the
measured series stays empty. -/
theorem polar_missing_fields_spec_witness :
    (5 : ℚ) ∈ mag_series_data .vPrevail 2 [rec5]
    ∧ series_data .vPrevail 2 [rec5] = [] := by
  have h := polar_missing_fields_spec .vPrevail 2 [rec5] rec5 (by simp)
  exact ⟨h.1 5 rfl, h.2.2 [rec5] (by intro r2 h2; simp at h2; subst h2; left; rfl)⟩

/-! ## Claim C6 -/

/-- Claim C6: `get_records_grouped_by_harmonic` returns a mapping whose keys
are exactly the distinct harmonic numbers present in the store (the source's
non-integer guard is vacuous for an `IntegerField`), and whose value for each
key is the stored records with that `harmonic_number`, truncated to at most
100000 records per harmonic. -/
theorem grouped_by_harmonic_spec (db : List HarmonicRecord) :
    (∀ h : Int, (∃ l, (h, l) ∈ get_records_grouped_by_harmonic db) ↔
        h ∈ db.map (fun r => r.harmonic_number))
    ∧ (∀ h l, (h, l) ∈ get_records_grouped_by_harmonic db →
        l = (db.filter (fun r => r.harmonic_number = h)).take MAX_RECORDS_PER_HARMONIC
        ∧ l.length ≤ MAX_RECORDS_PER_HARMONIC) := by
  constructor
  · intro h
    constructor
    · rintro ⟨l, hl⟩
      rcases List.mem_map.mp hl with ⟨k, hk, hkl⟩
      injection hkl with hk1 hk2
      subst hk1
      exact List.mem_dedup.mp hk
    · intro hmem
      exact ⟨_, List.mem_map.mpr ⟨h, List.mem_dedup.mpr hmem, rfl⟩⟩
  · intro h l hl
    rcases List.mem_map.mp hl with ⟨k, hk, hkl⟩
    injection hkl with hk1 hk2
    subst hk1
    subst hk2
    exact ⟨rfl, List.length_take_le _ _⟩

/-- Witness for C6: in the two-record store `db6`, harmonic 3 is a key. -/
theorem grouped_by_harmonic_spec_witness :
    ∃ l, ((3 : Int), l) ∈ get_records_grouped_by_harmonic db6 :=
  ((grouped_by_harmonic_spec db6).1 3).mpr (by decide)

/-! ## Claim C7 -/

/-- Claim C7: the database-wipe command, run without `--noinput` and given
interactive input whose lower-casing is not `yes`, exits without modifying the
database; run with `--noinput` or confirmed with `yes` (case-insensitively),
it deletes all data from every model, leaving the store empty. -/
theorem wipe_db_confirmation {α : Type} (db : List α) (noinput : Bool)
    (confirm : List Char) :
    (noinput = false → pyLower confirm ≠ ("yes".toList) →
        wipe_db_handle noinput confirm db = (db, true))
    ∧ (noinput = true ∨ pyLower confirm = ("yes".toList) →
        wipe_db_handle noinput confirm db = ([], false)) := by
  constructor
  · intro h1 h2
    unfold wipe_db_handle
    rw [if_pos ⟨h1, h2⟩]
  · intro h
    unfold wipe_db_handle
    rw [if_neg]
    rintro ⟨h1, h2⟩
    rcases h with h | h
    · rw [h] at h1
      exact absurd h1 (by decide)
    · exact h2 h

/-- Witness for C7: answering `No` aborts and keeps the three rows; answering
`YES` wipes them. -/
theorem wipe_db_confirmation_witness :
    wipe_db_handle false ("No".toList) [1, 2, 3] = ([1, 2, 3], true)
    ∧ wipe_db_handle false ("YES".toList) [1, 2, 3] = ([], false) :=
  ⟨(wipe_db_confirmation [1, 2, 3] false ("No".toList)).1 rfl (by decide),
   (wipe_db_confirmation [1, 2, 3] false ("YES".toList)).2 (Or.inr (by decide))⟩

/-! ## Claim C8 -/

/-- Claim C8: `read_csv` strips exactly one pair of surrounding double quotes
from a line before splitting on tabs, and only when the line both starts and
ends with a double quote; a line quoted at only one end is left unchanged.
(`stripQuotes` is applied to the stripped header line and to each stripped
data line before `splitOnTab`, in `parse_header` and `processRowIH`.) -/
theorem quote_stripping_spec (t u : List Char)
    (hu : u.head? ≠ some '"' ∨ u.getLast? ≠ some '"') :
    stripQuotes ('"' :: t ++ ['"']) = t ∧ stripQuotes u = u := by
  constructor
  · unfold stripQuotes
    rw [if_pos]
    · show ('"' :: (t ++ ['"'])).tail.dropLast = t
      rw [List.tail_cons, List.dropLast_concat]
    · refine ⟨rfl, ?_⟩
      show (('"' :: t) ++ ['"']).getLast? = some '"'
      exact List.getLast?_concat _
  · unfold stripQuotes
    rw [if_neg]
    rintro ⟨h1, h2⟩
    rcases hu with h | h
    · exact h h1
    · exact h h2

/-- Witness for C8: a fully quoted line loses exactly its outer quotes, and a
line quoted only at the start is unchanged. -/
theorem quote_stripping_spec_witness :
    stripQuotes ('"' :: ("a\tb".toList) ++ ['"']) = ("a\tb".toList)
    ∧ stripQuotes ("\"ab".toList) = ("\"ab".toList) :=
  quote_stripping_spec ("a\tb".toList) ("\"ab".toList) (by decide)

/-! ## Claim C9 -/

/-- Claim C9: `fetch_data` raises an `AssertionError` whenever fewer than 2
rows remain for the requested harmonic number (before or after filtering);
otherwise, with night mode and a threshold `t` it returns exactly the rows for
that harmonic whose `p_harm_total` strictly exceeds `t/100` of the maximum
`p_harm_total` among those rows, and without night mode or threshold it
returns all rows for that harmonic (`fetch_data_claim_rows`). -/
theorem fetch_data_spec (db : List HarmData) (hn : Int) (nm : Bool) (tp : Option ℚ) :
    ((db.filter (fun r => r.harm_number = hn)).length < 2 →
        ∃ e, fetch_data db hn nm tp = .error e)
    ∧ ((fetch_data_claim_rows db hn nm tp).length < 2 →
        ∃ e, fetch_data db hn nm tp = .error e)
    ∧ (2 ≤ (fetch_data_claim_rows db hn nm tp).length →
        fetch_data db hn nm tp = .ok (fetch_data_claim_rows db hn nm tp)) := by
  have hle : (fetch_data_claim_rows db hn nm tp).length ≤
      (db.filter (fun r => r.harm_number = hn)).length := by
    rcases nm with _ | _ <;> rcases tp with _ | t <;>
      simp only [fetch_data_claim_rows] <;>
      first
      | exact Nat.le_refl _
      | exact List.length_filter_le _ _
  have hfd : fetch_data db hn nm tp =
      (if (db.filter (fun r => r.harm_number = hn)).isEmpty then
        .error ("No data found for the specified harmonic number.".toList)
      else if (fetch_data_claim_rows db hn nm tp).isEmpty
          || decide ((fetch_data_claim_rows db hn nm tp).length < 2) then
        .error ("Insufficient data after filtering.".toList)
      else .ok (fetch_data_claim_rows db hn nm tp)) := by
    rcases nm with _ | _ <;> rcases tp with _ | t <;> rfl
  refine ⟨?_, ?_, ?_⟩
  · intro h2
    by_cases he : (db.filter (fun r => r.harm_number = hn)).isEmpty
    · exact ⟨_, by rw [hfd, if_pos he]⟩
    · have hcl : (fetch_data_claim_rows db hn nm tp).length < 2 :=
        Nat.lt_of_le_of_lt hle h2
      exact ⟨_, by rw [hfd, if_neg he, if_pos (by simp [hcl])]⟩
  · intro h2
    by_cases he : (db.filter (fun r => r.harm_number = hn)).isEmpty
    · exact ⟨_, by rw [hfd, if_pos he]⟩
    · exact ⟨_, by rw [hfd, if_neg he, if_pos (by simp [h2])]⟩
  · intro h2
    have he : ¬ ((db.filter (fun r => r.harm_number = hn)).isEmpty = true) := by
      intro he
      have h0 : (db.filter (fun r => r.harm_number = hn)).length = 0 :=
        List.isEmpty_iff_length_eq_zero.mp he
      omega
    have hne : ¬ (((fetch_data_claim_rows db hn nm tp).isEmpty
        || decide ((fetch_data_claim_rows db hn nm tp).length < 2)) = true) := by
      have h0 : ¬ ((fetch_data_claim_rows db hn nm tp).isEmpty = true) := by
        intro hh
        have := List.isEmpty_iff_length_eq_zero.mp hh
        omega
      simp only [Bool.or_eq_true, decide_eq_true_eq]
      rintro (hh | hh)
      · exact h0 hh
      · omega
    rw [hfd, if_neg he, if_neg hne]

/-- Witness for C9: with three rows at harmonic 3 whose powers are 10, 100 and
60, night mode at 50 percent keeps exactly the rows above 50 and returns
them. -/
theorem fetch_data_spec_witness :
    2 ≤ (fetch_data_claim_rows db9 3 true (some 50)).length
    ∧ fetch_data db9 3 true (some 50) = .ok (fetch_data_claim_rows db9 3 true (some 50)) := by
  have h2 : 2 ≤ (fetch_data_claim_rows db9 3 true (some 50)).length := by decide
  exact ⟨h2, (fetch_data_spec db9 3 true (some 50)).2.2 h2⟩

/-! ## Claim C4 -/

/-- Claim C4: for every input file whose header is present but missing at
least one required column, each CSV ingestion step raises an `AssertionError`
carrying the list of missing columns, and the store is unchanged (no records
are inserted), for `load_csv_to_db` and for the `read_csv` import path
alike. -/
theorem missing_columns_abort (db : List HarmData) (dbH : List HarmonicRecord)
    (hdr hdr2 : List Char) (rest rest2 : List (List Char))
    (hne : ¬ ((pyStrip hdr).isEmpty = true))
    (hm1 : missing_columns_lc hdr ≠ [])
    (hm2 : missing_headers_ih hdr2 ≠ []) :
    load_csv_to_db_run db (hdr :: rest)
      = (db, some (.missingColumns (missing_columns_lc hdr)))
    ∧ import_harmonics_run dbH (hdr2 :: rest2)
      = (dbH, some (.missingColumns (missing_headers_ih hdr2))) := by
  constructor
  · simp only [load_csv_to_db_run]
    rw [if_neg hne, if_pos hm1]
  · have hr : read_csv (hdr2 :: rest2) MAX_ROWS
        = .error (.missingColumns (missing_headers_ih hdr2)) := by
      simp only [read_csv]
      rw [if_pos hm2]
    simp only [import_harmonics_run, hr]

/-- Witness for C4: headers missing P_HARM_TOTAL (respectively ROW_ID) make
both ingestion steps fail with the missing column reported, inserting
nothing. -/
theorem missing_columns_abort_witness :
    load_csv_to_db_run [] [lcHdrMissingOne]
      = ([], some (.missingColumns (missing_columns_lc lcHdrMissingOne)))
    ∧ import_harmonics_run [] [ihHdrMissingOne]
      = ([], some (.missingColumns (missing_headers_ih ihHdrMissingOne))) :=
  missing_columns_abort [] [] lcHdrMissingOne ihHdrMissingOne [] []
    (by decide) (by decide) (by decide)

/-! ## Claim C3 -/

/-- Claim C3 (amended): the ingestion scripts split only on tabs, so a
header whose tab-split fields do not include HARM_NUMBER — as for any
comma-delimited file — is rejected by the header assertion and nothing is
inserted, in both ingestion paths. -/
theorem tab_only_ingestion (db : List HarmData) (dbH : List HarmonicRecord)
    (hdr hdr2 : List Char) (rest rest2 : List (List Char))
    (h1 : ("HARM_NUMBER".toList) ∉ splitOnTab (pyStrip hdr))
    (h2 : ("HARM_NUMBER".toList) ∉ parse_header hdr2) :
    (∃ e, load_csv_to_db_run db (hdr :: rest) = (db, some e))
    ∧ (∃ e, import_harmonics_run dbH (hdr2 :: rest2) = (dbH, some e)) := by
  constructor
  · by_cases hne : (pyStrip hdr).isEmpty
    · exact ⟨.emptyFile, by simp only [load_csv_to_db_run]; rw [if_pos hne]⟩
    · have hm : missing_columns_lc hdr ≠ [] := by
        refine List.ne_nil_of_mem (a := ("HARM_NUMBER".toList)) ?_
        unfold missing_columns_lc
        refine List.mem_filter.mpr ⟨by decide, ?_⟩
        exact decide_eq_true h1
      exact ⟨.missingColumns (missing_columns_lc hdr),
        by simp only [load_csv_to_db_run]; rw [if_neg hne, if_pos hm]⟩
  · have hm : missing_headers_ih hdr2 ≠ [] := by
      refine List.ne_nil_of_mem (a := ("HARM_NUMBER".toList)) ?_
      unfold missing_headers_ih
      refine List.mem_filter.mpr ⟨by decide, ?_⟩
      exact decide_eq_true h2
    have hr : read_csv (hdr2 :: rest2) MAX_ROWS
        = .error (.missingColumns (missing_headers_ih hdr2)) := by
      simp only [read_csv]
      rw [if_pos hm]
    exact ⟨.missingColumns (missing_headers_ih hdr2),
      by simp only [import_harmonics_run, hr]⟩

/-- Counterexample for C3 as stated: well-formed comma-delimited files
containing all required columns are rejected by both ingestion paths with a
missing-columns error (every required column is reported missing), and no
row is inserted. -/
theorem comma_file_counterexample :
    load_csv_to_db_run [] [lcCommaHdr, lcCommaRow]
      = ([], some (.missingColumns REQUIRED_COLUMNS))
    ∧ import_harmonics_run [] [ihCommaHdr, ihCommaRow]
      = ([], some (.missingColumns required_headers)) := by
  constructor
  · decide
  · decide

/-- Witness for C3 (amended): the comma-delimited header passes neither
tab-split HARM_NUMBER check, so both paths reject it. -/
theorem tab_only_ingestion_witness :
    (∃ e, load_csv_to_db_run [] [lcCommaHdr, lcCommaRow] = ([], some e))
    ∧ (∃ e, import_harmonics_run [] [ihCommaHdr, ihCommaRow] = ([], some e)) :=
  tab_only_ingestion [] [] lcCommaHdr ihCommaHdr [lcCommaRow] [ihCommaRow]
    (by decide) (by decide)

/-! ## Claim C2 -/

theorem readLoop_stop (headers : List (List Char)) (mr : Nat) (ls : List (List Char))
    (n : Nat) (h : mr ≤ n) : readLoop headers mr ls n = [] := by
  cases ls with
  | nil => rfl
  | cons l ls2 => simp [readLoop, h]

theorem readLoop_eq_take (headers : List (List Char)) (mr : Nat) (ls : List (List Char))
    (n : Nat) :
    readLoop headers mr ls n = (ls.filterMap (processRowIH headers)).take (mr - n) := by
  induction ls generalizing n with
  | nil => simp [readLoop]
  | cons l ls2 ih =>
    by_cases h : mr ≤ n
    · have h0 : mr - n = 0 := Nat.sub_eq_zero_of_le h
      simp [readLoop, h, h0]
    · cases hp : processRowIH headers l with
      | none => simp [readLoop, h, hp, List.filterMap_cons, ih]
      | some r =>
        have h1 : mr - n = (mr - (n + 1)) + 1 := by omega
        simp [readLoop, h, hp, List.filterMap_cons, ih, h1]

theorem filterMap_replicate_eq {α β : Type} (f : α → Option β) (a : α) (b : β)
    (h : f a = some b) (n : Nat) :
    (List.replicate n a).filterMap f = List.replicate n b := by
  induction n with
  | zero => rfl
  | succ n ih => simp [List.replicate_succ, List.filterMap_cons, h, ih]

/-- Claim C2 (amended): the `read_csv` import path enforces the fixed cap
`MAX_ROWS = 100000`: the record list it produces never exceeds the cap, and
once the cap is reached the remaining data lines are not processed (the loop
returns immediately). The `load_csv_to_db` path has no such cap (see the
counterexample). -/
theorem read_csv_row_cap (lines : List (List Char)) (recs : List RecordIH)
    (h : read_csv lines MAX_ROWS = .ok recs) :
    recs.length ≤ MAX_ROWS
    ∧ ∀ (headers : List (List Char)) (ls : List (List Char)) (n : Nat),
        MAX_ROWS ≤ n → readLoop headers MAX_ROWS ls n = [] := by
  refine ⟨?_, fun headers ls n hn => readLoop_stop headers MAX_ROWS ls n hn⟩
  cases lines with
  | nil => simp [read_csv] at h
  | cons hdr rest =>
    simp only [read_csv] at h
    by_cases hm : missing_headers_ih hdr ≠ []
    · rw [if_pos hm] at h
      cases h
    · rw [if_neg hm] at h
      injection h with h
      rw [← h, readLoop_eq_take]
      exact Nat.le_trans (List.length_take_le _ _) (Nat.sub_le _ _)

/-- Counterexample for C2 as stated: `load_csv_to_db` has no row cap — a file
of 100001 valid data lines inserts 100001 records, exceeding `MAX_ROWS`. -/
theorem load_csv_row_cap_counterexample :
    MAX_ROWS <
      ((load_csv_to_db_run [] (lcHdrLine :: List.replicate 100001 lcRowLine)).1).length := by
  have hrow : processRowLC (splitOnTab (pyStrip lcHdrLine)) lcRowLine = some lcRec := by
    decide
  have hne : ¬ ((pyStrip lcHdrLine).isEmpty = true) := by decide
  have hm : ¬ (missing_columns_lc lcHdrLine ≠ []) := by decide
  simp only [load_csv_to_db_run]
  rw [if_neg hne, if_neg hm, List.nil_append, filterMap_replicate_eq _ _ _ hrow,
    List.length_replicate]
  decide

/-- Witness for C2: a file with a single valid data line yields one record,
within the cap. -/
theorem read_csv_row_cap_witness :
    read_csv [ihHdrLine, ihGoodRow] MAX_ROWS = .ok [ihGoodRec]
    ∧ ([ihGoodRec] : List RecordIH).length ≤ MAX_ROWS :=
  have h : read_csv [ihHdrLine, ihGoodRow] MAX_ROWS = .ok [ihGoodRec] := by decide
  ⟨h, (read_csv_row_cap [ihHdrLine, ihGoodRow] [ihGoodRec] h).1⟩

/-! ## Claim C1 -/

/-- The `load_csv_to_db` row loop accepts a data line exactly under the
claim's stated conditions. -/
theorem processRowLC_isSome_iff (hf : List (List Char)) (line : List Char) :
    (processRowLC hf line).isSome = claimC1_validLC hf line := by
  unfold processRowLC claimC1_validLC
  by_cases h0 : (pyStrip line).isEmpty
  · simp [h0]
  · by_cases h1 : (splitOnTab (pyStrip line)).length = hf.length
    · simp only [h0, h1, REQUIRED_COLUMNS, List.map_cons, List.map_nil, List.tail_cons,
        List.all_cons, List.all_nil, Bool.not_false, Bool.true_and, ne_eq, not_true_eq_false,
        if_false, beq_self_eq_true, Bool.and_true]
      rw [if_neg (by simp [h1])]
      cases h2 : (dictGet (hf.zip (splitOnTab (pyStrip line))) ("HARM_NUMBER".toList)).bind parsePyInt with
      | none => simp [h2]
      | some hn =>
        simp only [h2, Option.isSome_some, Bool.true_and]
        cases h3 : getFloat (hf.zip (splitOnTab (pyStrip line))) ("P_HARM_TOTAL".toList) with
        | none => simp [h3]
        | some x0 =>
          simp only [h3, Option.isSome_some, Bool.true_and]
          cases h4 : getFloat (hf.zip (splitOnTab (pyStrip line))) ("I_PREVAIL_MAG_1".toList) with
          | none => simp [h4]
          | some x1 =>
            simp only [h4, Option.isSome_some, Bool.true_and]
            cases h5 : getFloat (hf.zip (splitOnTab (pyStrip line))) ("I_PREVAIL_ANG_1".toList) with
            | none => simp [h5]
            | some x2 =>
              simp only [h5, Option.isSome_some, Bool.true_and]
              cases h6 : getFloat (hf.zip (splitOnTab (pyStrip line))) ("V_PREVAIL_MAG_1".toList) with
              | none => simp [h6]
              | some x3 =>
                simp only [h6, Option.isSome_some, Bool.true_and]
                cases h7 : getFloat (hf.zip (splitOnTab (pyStrip line))) ("V_PREVAIL_ANG_1".toList) with
                | none => simp [h7]
                | some x4 =>
                  simp only [h7, Option.isSome_some, Bool.true_and]
                  cases h8 : getFloat (hf.zip (splitOnTab (pyStrip line))) ("I_PREVAIL_MAG_2".toList) with
                  | none => simp [h8]
                  | some x5 =>
                    simp only [h8, Option.isSome_some, Bool.true_and]
                    cases h9 : getFloat (hf.zip (splitOnTab (pyStrip line))) ("I_PREVAIL_ANG_2".toList) with
                    | none => simp [h9]
                    | some x6 =>
                      simp only [h9, Option.isSome_some, Bool.true_and]
                      cases h10 : getFloat (hf.zip (splitOnTab (pyStrip line))) ("V_PREVAIL_MAG_2".toList) with
                      | none => simp [h10]
                      | some x7 =>
                        simp only [h10, Option.isSome_some, Bool.true_and]
                        cases h11 : getFloat (hf.zip (splitOnTab (pyStrip line))) ("V_PREVAIL_ANG_2".toList) with
                        | none => simp [h11]
                        | some x8 =>
                          simp only [h11, Option.isSome_some, Bool.true_and]
                          cases h12 : getFloat (hf.zip (splitOnTab (pyStrip line))) ("I_PREVAIL_MAG_3".toList) with
                          | none => simp [h12]
                          | some x9 =>
                            simp only [h12, Option.isSome_some, Bool.true_and]
                            cases h13 : getFloat (hf.zip (splitOnTab (pyStrip line))) ("I_PREVAIL_ANG_3".toList) with
                            | none => simp [h13]
                            | some x10 =>
                              simp only [h13, Option.isSome_some, Bool.true_and]
                              cases h14 : getFloat (hf.zip (splitOnTab (pyStrip line))) ("V_PREVAIL_MAG_3".toList) with
                              | none => simp [h14]
                              | some x11 =>
                                simp only [h14, Option.isSome_some, Bool.true_and]
                                cases h15 : getFloat (hf.zip (splitOnTab (pyStrip line))) ("V_PREVAIL_ANG_3".toList) with
                                | none => simp [h15]
                                | some x12 =>
                                  simp only [h15, Option.isSome_some, Bool.true_and]
    · simp [h0, h1]
/-- The `read_csv` row loop accepts a data line exactly under the claim's
stated conditions strengthened with the ROW_ID requirement. -/
theorem processRowIH_isSome_iff (headers : List (List Char)) (line : List Char) :
    (processRowIH headers line).isSome = claimC1_validIH_full headers line := by
  unfold processRowIH claimC1_validIH_full claimC1_validIH harm_number_integer row_id_integer
  by_cases h0 : (pyStrip line).isEmpty
  · simp [h0]
  · by_cases h1 : (splitOnTab (stripQuotes (pyStrip line))).length = headers.length
    · simp only [h0, h1, Bool.not_false, Bool.true_and, ne_eq, not_true_eq_false, if_false,
        beq_self_eq_true]
      rw [if_neg (by simp [h1])]
      cases h2 : dictGet (headers.zip (splitOnTab (stripQuotes (pyStrip line)))) ("HARM_NUMBER".toList) with
      | none => simp [h2]
      | some hfv =>
        simp only [h2]
        by_cases h3 : (pyStrip hfv).isEmpty
        · simp [h3]
        · simp only [h3, Bool.not_false, Bool.true_and, if_false]
          cases h4 : parsePyFloat (pyStrip hfv) with
          | none => simp [h4]
          | some hv =>
            simp only [h4]
            by_cases h5 : hv.den = 1
            · simp only [h5, ne_eq, not_true_eq_false, if_false, beq_self_eq_true, Bool.true_and]
              cases h6 : dictGet (headers.zip (splitOnTab (stripQuotes (pyStrip line)))) ("ROW_ID".toList) with
              | none => simp [h6]
              | some rfv =>
                simp only [h6]
                by_cases h7 : (pyStrip rfv).isEmpty
                · simp [h7]
                · simp only [h7, Bool.not_false, Bool.true_and, if_false]
                  cases h8 : parsePyInt (pyStrip rfv) with
                  | none => simp [h8]
                  | some rid => simp [h8]
            · simp [h5]
    · simp [h0, h1]

/-- Claim C1 (amended): with a valid header, each ingestion step produces a
record for exactly those data lines that are non-empty, split on tab into as
many fields as the header, and whose HARM_NUMBER parses as an integer — in
`load_csv_to_db` additionally requiring the other required fields to parse as
floats, and in `read_csv` additionally requiring a ROW_ID that parses as an
integer (and subject to `read_csv`'s `MAX_ROWS` cap, claim C2). A skipped
line neither aborts the import nor changes how other lines are handled, and
every produced record is inserted. -/
theorem csv_ingestion_row_filtering (hf headers : List (List Char)) (line : List Char)
    (dbH : List HarmonicRecord) (lines : List (List Char)) (recs : List RecordIH)
    (hok : read_csv lines MAX_ROWS = .ok recs) :
    (processRowLC hf line).isSome = claimC1_validLC hf line
    ∧ (processRowIH headers line).isSome = claimC1_validIH_full headers line
    ∧ (processRowIH headers line = none →
        ∀ (ls : List (List Char)) (n : Nat),
          readLoop headers MAX_ROWS (line :: ls) n = readLoop headers MAX_ROWS ls n)
    ∧ import_harmonics_run dbH lines = (import_records dbH recs, none) := by
  refine ⟨processRowLC_isSome_iff hf line, processRowIH_isSome_iff headers line, ?_, ?_⟩
  · intro hnone ls n
    by_cases h : MAX_ROWS ≤ n
    · rw [readLoop_stop headers MAX_ROWS (line :: ls) n h, readLoop_stop headers MAX_ROWS ls n h]
    · simp [readLoop, h, hnone]
  · simp only [import_harmonics_run, hok]

/-- Counterexample for C1 as stated: `ihBadRow` satisfies every condition the
claim lists for `read_csv` (non-empty, 18 fields, integer HARM_NUMBER), yet
`read_csv` produces no record for it, because its ROW_ID does not parse as an
integer. -/
theorem csv_ingestion_rowid_counterexample :
    claimC1_validIH (parse_header ihHdrLine) ihBadRow = true
    ∧ read_csv [ihHdrLine, ihBadRow] MAX_ROWS = .ok [] := by
  constructor
  · decide
  · decide

/-- Witness for C1: a fully valid one-line file is parsed and its single
record inserted. -/
theorem csv_ingestion_row_filtering_witness :
    import_harmonics_run [] [ihHdrLine, ihGoodRow] = (import_records [] [ihGoodRec], none) :=
  (csv_ingestion_row_filtering [] [] ([]) [] [ihHdrLine, ihGoodRow] [ihGoodRec]
    (by decide)).2.2.2
